import Mathlib

set_option maxHeartbeats 1600000

/- Verification development for the PyStrange trajectory generation and
validation engine (src/pystrange.py).  Python floats are modelled by exact
rationals, numpy arrays by lists, and the module-level functions of the
source are embedded one-to-one as Lean definitions carrying the same names.
I/O (plotting, printing) is outside the model; the generator functions
return a verdict value instead of printing and returning a Bool. -/

/-- Embedding of the module-level dictionary `coeff` (src lines 68-76):
the 26 capital letters mapped to the evenly spaced values -1.2 .. 1.3,
in insertion order. -/
def coeff : List (Char × ℚ) :=
  [('A', -12/10), ('B', -11/10), ('C', -10/10),
   ('D', -9/10), ('E', -8/10), ('F', -7/10),
   ('G', -6/10), ('H', -5/10), ('I', -4/10),
   ('J', -3/10), ('K', -2/10), ('L', -1/10),
   ('M', 0), ('N', 1/10), ('O', 2/10),
   ('P', 3/10), ('Q', 4/10), ('R', 5/10),
   ('S', 6/10), ('T', 7/10), ('U', 8/10),
   ('V', 9/10), ('W', 10/10), ('X', 11/10),
   ('Y', 12/10), ('Z', 13/10)]

/-- Dictionary lookup `coeff[value]`: `some` on the 26 keys, `none`
(Python `KeyError`) otherwise. -/
def coeff_lookup (ch : Char) : Option ℚ :=
  (coeff.find? (fun p => p.1 == ch)).map (fun p => p.2)

/-- Embedding of `get_coefficient(parameter_string, coefficients)`
(src lines 160-161): look every character up in the dictionary, in order.
A failing lookup (Python `KeyError`) makes the whole decode fail. -/
def get_coefficient (parameter_string : List Char)
    (coefficients : Char → Option ℚ) : Option (List ℚ) :=
  parameter_string.mapM coefficients

/-- The key list `list(coefficients.keys())` used by `get_random_string`. -/
def coeff_keys : List Char := coeff.map (fun p => p.1)

/-- Embedding of `get_random_string(coefficients, n)` (src lines 165-166).
`random.choice` on the 26-element key list is modelled by an arbitrary
oracle `pick` of indices below 26: whatever the random source does,
`random.choice(keys)` returns the element of `keys` at some such index. -/
def get_random_string (pick : ℕ → Fin 26) (n : ℕ) : List Char :=
  (List.range n).map (fun i => coeff_keys.getD (pick i) 'A')

/-- Embedding of `map_2d_12` (src lines 80-85); `c[i]` is `c.getD i 0`
(the arity-12 coefficient vector is validated upstream). -/
def map_2d_12 (x y : ℚ) (c : List ℚ) : ℚ × ℚ :=
  (c.getD 0 0 + c.getD 1 0 * x + c.getD 2 0 * x * x + c.getD 3 0 * x * y
     + c.getD 4 0 * y + c.getD 5 0 * y * y,
   c.getD 6 0 + c.getD 7 0 * x + c.getD 8 0 * x * x + c.getD 9 0 * x * y
     + c.getD 10 0 * y + c.getD 11 0 * y * y)

/-- Embedding of `map_2d_20` (src lines 89-96). -/
def map_2d_20 (x y : ℚ) (c : List ℚ) : ℚ × ℚ :=
  (c.getD 0 0 + c.getD 1 0 * x + c.getD 2 0 * x * x + c.getD 3 0 * x * x * x
     + c.getD 4 0 * x * x * y + c.getD 5 0 * x * y + c.getD 6 0 * x * y * y
     + c.getD 7 0 * y + c.getD 8 0 * y * y + c.getD 9 0 * y * y * y,
   c.getD 10 0 + c.getD 11 0 * x + c.getD 12 0 * x * x + c.getD 13 0 * x * x * x
     + c.getD 14 0 * x * x * y + c.getD 15 0 * x * y + c.getD 16 0 * x * y * y
     + c.getD 17 0 * y + c.getD 18 0 * y * y + c.getD 19 0 * y * y * y)

/-- Embedding of `map_3d_30` (src lines 100-109). -/
def map_3d_30 (x y z : ℚ) (c : List ℚ) : ℚ × ℚ × ℚ :=
  (c.getD 0 0 + c.getD 1 0 * x + c.getD 2 0 * x * x + c.getD 3 0 * x * y
     + c.getD 4 0 * x * z + c.getD 5 0 * y + c.getD 6 0 * y * y
     + c.getD 7 0 * y * z + c.getD 8 0 * z + c.getD 9 0 * z * z,
   c.getD 10 0 + c.getD 11 0 * x + c.getD 12 0 * x * x + c.getD 13 0 * x * y
     + c.getD 14 0 * x * z + c.getD 15 0 * y + c.getD 16 0 * y * y
     + c.getD 17 0 * y * z + c.getD 18 0 * z + c.getD 19 0 * z * z,
   c.getD 20 0 + c.getD 21 0 * x + c.getD 22 0 * x * x + c.getD 23 0 * x * y
     + c.getD 24 0 * x * z + c.getD 25 0 * y + c.getD 26 0 * y * y
     + c.getD 27 0 * y * z + c.getD 28 0 * z + c.getD 29 0 * z * z)

/-- Embedding of `map_3d_60` (src lines 113-128). -/
def map_3d_60 (x y z : ℚ) (c : List ℚ) : ℚ × ℚ × ℚ :=
  (c.getD 0 0 + c.getD 1 0 * x + c.getD 2 0 * x * x + c.getD 3 0 * x * x * x
     + c.getD 4 0 * x * x * y + c.getD 5 0 * x * x * z + c.getD 6 0 * x * y
     + c.getD 7 0 * x * y * y + c.getD 8 0 * x * y * z + c.getD 9 0 * x * z
     + c.getD 10 0 * x * z * z + c.getD 11 0 * y + c.getD 12 0 * y * y
     + c.getD 13 0 * y * y * y + c.getD 14 0 * y * y * z + c.getD 15 0 * y * z
     + c.getD 16 0 * y * z * z + c.getD 17 0 * z + c.getD 18 0 * z * z
     + c.getD 19 0 * z * z * z,
   c.getD 20 0 + c.getD 21 0 * x + c.getD 22 0 * x * x + c.getD 23 0 * x * x * x
     + c.getD 24 0 * x * x * y + c.getD 25 0 * x * x * z + c.getD 26 0 * x * y
     + c.getD 27 0 * x * y * y + c.getD 28 0 * x * y * z + c.getD 29 0 * x * z
     + c.getD 30 0 * x * z * z + c.getD 31 0 * y + c.getD 32 0 * y * y
     + c.getD 33 0 * y * y * y + c.getD 34 0 * y * y * z + c.getD 35 0 * y * z
     + c.getD 36 0 * y * z * z + c.getD 37 0 * z + c.getD 38 0 * z * z
     + c.getD 39 0 * z * z * z,
   c.getD 40 0 + c.getD 41 0 * x + c.getD 42 0 * x * x + c.getD 43 0 * x * x * x
     + c.getD 44 0 * x * x * y + c.getD 45 0 * x * x * z + c.getD 46 0 * x * y
     + c.getD 47 0 * x * y * y + c.getD 48 0 * x * y * z + c.getD 49 0 * x * z
     + c.getD 50 0 * x * z * z + c.getD 51 0 * y + c.getD 52 0 * y * y
     + c.getD 53 0 * y * y * y + c.getD 54 0 * y * y * z + c.getD 55 0 * y * z
     + c.getD 56 0 * y * z * z + c.getD 57 0 * z + c.getD 58 0 * z * z
     + c.getD 59 0 * z * z * z)

/-- Embedding of `map_3d_105` (src lines 132-156). -/
def map_3d_105 (x y z : ℚ) (c : List ℚ) : ℚ × ℚ × ℚ :=
  (c.getD 0 0 + c.getD 1 0 * x + c.getD 2 0 * x * x + c.getD 3 0 * x * x * x
     + c.getD 4 0 * x * x * x * x + c.getD 5 0 * x * x * x * y
     + c.getD 6 0 * x * x * x * z + c.getD 7 0 * x * x * y
     + c.getD 8 0 * x * x * y * y + c.getD 9 0 * x * x * y * z
     + c.getD 10 0 * x * x * z + c.getD 11 0 * x * x * z * z
     + c.getD 12 0 * x * y + c.getD 13 0 * x * y * y
     + c.getD 14 0 * x * y * y * y + c.getD 15 0 * x * y * y * z
     + c.getD 16 0 * x * y * z + c.getD 17 0 * x * y * z * z
     + c.getD 18 0 * x * z + c.getD 19 0 * x * z * z
     + c.getD 20 0 * x * z * z * z + c.getD 21 0 * y + c.getD 22 0 * y * y
     + c.getD 23 0 * y * y * y + c.getD 24 0 * y * y * y * y
     + c.getD 25 0 * y * y * y * z + c.getD 26 0 * y * y * z
     + c.getD 27 0 * y * y * z * z + c.getD 28 0 * y * z
     + c.getD 29 0 * y * z * z + c.getD 30 0 * y * z * z * z
     + c.getD 31 0 * z + c.getD 32 0 * z * z + c.getD 33 0 * z * z * z
     + c.getD 34 0 * z * z * z * z,
   c.getD 35 0 + c.getD 36 0 * x + c.getD 37 0 * x * x + c.getD 38 0 * x * x * x
     + c.getD 39 0 * x * x * x * x + c.getD 40 0 * x * x * x * y
     + c.getD 41 0 * x * x * x * z + c.getD 42 0 * x * x * y
     + c.getD 43 0 * x * x * y * y + c.getD 44 0 * x * x * y * z
     + c.getD 45 0 * x * x * z + c.getD 46 0 * x * x * z * z
     + c.getD 47 0 * x * y + c.getD 48 0 * x * y * y
     + c.getD 49 0 * x * y * y * y + c.getD 50 0 * x * y * y * z
     + c.getD 51 0 * x * y * z + c.getD 52 0 * x * y * z * z
     + c.getD 53 0 * x * z + c.getD 54 0 * x * z * z
     + c.getD 55 0 * x * z * z * z + c.getD 56 0 * y + c.getD 57 0 * y * y
     + c.getD 58 0 * y * y * y + c.getD 59 0 * y * y * y * y
     + c.getD 60 0 * y * y * y * z + c.getD 61 0 * y * y * z
     + c.getD 62 0 * y * y * z * z + c.getD 63 0 * y * z
     + c.getD 64 0 * y * z * z + c.getD 65 0 * y * z * z * z
     + c.getD 66 0 * z + c.getD 67 0 * z * z + c.getD 68 0 * z * z * z
     + c.getD 69 0 * z * z * z * z,
   c.getD 70 0 + c.getD 71 0 * x + c.getD 72 0 * x * x + c.getD 73 0 * x * x * x
     + c.getD 74 0 * x * x * x * x + c.getD 75 0 * x * x * x * y
     + c.getD 76 0 * x * x * x * z + c.getD 77 0 * x * x * y
     + c.getD 78 0 * x * x * y * y + c.getD 79 0 * x * x * y * z
     + c.getD 80 0 * x * x * z + c.getD 81 0 * x * x * z * z
     + c.getD 82 0 * x * y + c.getD 83 0 * x * y * y
     + c.getD 84 0 * x * y * y * y + c.getD 85 0 * x * y * y * z
     + c.getD 86 0 * x * y * z + c.getD 87 0 * x * y * z * z
     + c.getD 88 0 * x * z + c.getD 89 0 * x * z * z
     + c.getD 90 0 * x * z * z * z + c.getD 91 0 * y + c.getD 92 0 * y * y
     + c.getD 93 0 * y * y * y + c.getD 94 0 * y * y * y * y
     + c.getD 95 0 * y * y * y * z + c.getD 96 0 * y * y * z
     + c.getD 97 0 * y * y * z * z + c.getD 98 0 * y * z
     + c.getD 99 0 * y * z * z + c.getD 100 0 * y * z * z * z
     + c.getD 101 0 * z + c.getD 102 0 * z * z + c.getD 103 0 * z * z * z
     + c.getD 104 0 * z * z * z * z)

/-- A registry entry: either a 2-dimensional or a 3-dimensional evaluator. -/
inductive MapFn
  | dim2 (f : ℚ → ℚ → List ℚ → ℚ × ℚ)
  | dim3 (f : ℚ → ℚ → ℚ → List ℚ → ℚ × ℚ × ℚ)

/-- Embedding of `get_map_function(m)` (src lines 563-574).  The Python
function falls off the end for an unrecognized name and thus returns the
value `None`; that implicit return is `Option.none` here. -/
def get_map_function (m : String) : Option MapFn :=
  if m = "3d_30" then some (.dim3 map_3d_30)
  else if m = "3d_60" then some (.dim3 map_3d_60)
  else if m = "3d_105" then some (.dim3 map_3d_105)
  else if m = "2d_12" then some (.dim2 map_2d_12)
  else if m = "2d_20" then some (.dim2 map_2d_20)
  else none

/-- Evaluate a list of bivariate monomials (exponent pairs) against the
coefficient slice of `c` starting at `off`: coefficient index `off + j`
multiplies the `j`-th monomial.  Used to state the polynomial shape of the
2-dimensional map families. -/
def polyEval2 : List (ℕ × ℕ) → List ℚ → ℕ → ℚ → ℚ → ℚ
  | [], _, _, _, _ => 0
  | m :: ms, c, off, x, y =>
      c.getD off 0 * x ^ m.1 * y ^ m.2 + polyEval2 ms c (off + 1) x y

/-- Evaluate a list of trivariate monomials (exponent triples) against the
coefficient slice of `c` starting at `off`. -/
def polyEval3 : List (ℕ × ℕ × ℕ) → List ℚ → ℕ → ℚ → ℚ → ℚ → ℚ
  | [], _, _, _, _, _ => 0
  | m :: ms, c, off, x, y, z =>
      c.getD off 0 * x ^ m.1 * y ^ m.2.1 * z ^ m.2.2
        + polyEval3 ms c (off + 1) x y z

/-- Monomial order of each output coordinate of `map_2d_12`:
1, x, x², xy, y, y². -/
def mons_2d_12 : List (ℕ × ℕ) :=
  [(0,0), (1,0), (2,0), (1,1), (0,1), (0,2)]

/-- Monomial order of each output coordinate of `map_2d_20`. -/
def mons_2d_20 : List (ℕ × ℕ) :=
  [(0,0), (1,0), (2,0), (3,0), (2,1), (1,1), (1,2), (0,1), (0,2), (0,3)]

/-- Monomial order of each output coordinate of `map_3d_30`. -/
def mons_3d_30 : List (ℕ × ℕ × ℕ) :=
  [(0,0,0), (1,0,0), (2,0,0), (1,1,0), (1,0,1),
   (0,1,0), (0,2,0), (0,1,1), (0,0,1), (0,0,2)]

/-- Monomial order of each output coordinate of `map_3d_60`. -/
def mons_3d_60 : List (ℕ × ℕ × ℕ) :=
  [(0,0,0), (1,0,0), (2,0,0), (3,0,0), (2,1,0), (2,0,1), (1,1,0), (1,2,0),
   (1,1,1), (1,0,1), (1,0,2), (0,1,0), (0,2,0), (0,3,0), (0,2,1), (0,1,1),
   (0,1,2), (0,0,1), (0,0,2), (0,0,3)]

/-- Monomial order of each output coordinate of `map_3d_105`. -/
def mons_3d_105 : List (ℕ × ℕ × ℕ) :=
  [(0,0,0), (1,0,0), (2,0,0), (3,0,0), (4,0,0), (3,1,0), (3,0,1), (2,1,0),
   (2,2,0), (2,1,1), (2,0,1), (2,0,2), (1,1,0), (1,2,0), (1,3,0), (1,2,1),
   (1,1,1), (1,1,2), (1,0,1), (1,0,2), (1,0,3), (0,1,0), (0,2,0), (0,3,0),
   (0,4,0), (0,3,1), (0,2,1), (0,2,2), (0,1,1), (0,1,2), (0,1,3), (0,0,1),
   (0,0,2), (0,0,3), (0,0,4)]

/-- Round-half-to-even on a rational, the tie-breaking rule of `np.round`. -/
def roundHalfEven (x : ℚ) : ℤ :=
  if x - ⌊x⌋ < 1/2 then ⌊x⌋
  else if 1/2 < x - ⌊x⌋ then ⌊x⌋ + 1
  else if ⌊x⌋ % 2 = 0 then ⌊x⌋ else ⌊x⌋ + 1

/-- `np.round(v, 3)`: round to 3 decimal digits (src lines 239-241, 257-258),
modelled exactly over the rationals. -/
def np_round3 (v : ℚ) : ℚ := (roundHalfEven (v * 1000) : ℚ) / 1000

/-- `np.histogram(r, len(r))` followed by counting the bins that contain
at least one point (src lines 242-247): the `len(r)` equal-width bins span
the observed min-max range, a value `v` lands in bin
`⌊(v - min) * len(r) / (max - min)⌋` except that the maximum itself is put
in the last bin, and the occupied bins are the distinct bin indices.  When
all values coincide numpy widens the range by ±0.5 around the single
value, so exactly one bin is occupied. -/
def occupied_bins (r : List ℚ) : ℕ :=
  match r.min?, r.max? with
  | some mn, some mx =>
      if mn = mx then 1
      else ((r.map (fun v =>
          min (Int.toNat ⌊(v - mn) * (r.length : ℚ) / (mx - mn)⌋)
            (r.length - 1))).dedup).length
  | _, _ => 0

/-- Occupied-bin count of one axis window, embedding src lines 239-247
(and 257-262): round the window to 3 decimal digits, then histogram. -/
def diff_val (w : List ℚ) : ℕ :=
  occupied_bins (w.map np_round3)

/-- The fixed diversity threshold (default argument `threshold=50`). -/
def diversity_threshold : ℕ := 50

/-- Embedding of `check_histogram` (src lines 235-270) over the list of
per-axis windows (two windows for `dim == 2`, three for `dim == 3`).
It returns `false` (reject) exactly when every axis's occupied-bin count
is strictly below the threshold. -/
def check_histogram (ws : List (List ℚ)) : Bool :=
  !(ws.all (fun w => decide (diff_val w < diversity_threshold)))

/-- The per-step divergence test of src lines 293, 340, 393: some
coordinate of the point has magnitude strictly greater than 10. -/
def out_of_bounds (p : List ℚ) : Bool :=
  p.any (fun v => decide (10 < |v|))

/-- The pure orbit of a step function: `orbitL step init i` is the point
stored at index `i` of the coordinate buffers (all writes are
`x[i+1] = step(x[i])`, starting from the initial condition). -/
def orbitL (step : List ℚ → List ℚ) (init : List ℚ) : ℕ → List ℚ
  | 0 => init
  | n + 1 => step (orbitL step init n)

/-- The slice `x[i-100:i]` of axis `a`, as read by the checkpoint. -/
def axis_window (step : List ℚ → List ℚ) (init : List ℚ) (a i : ℕ) :
    List ℚ :=
  (List.range 100).map (fun k => (orbitL step init (i - 100 + k)).getD a 0)

/-- Outcome of one generation run: the early `return False` paths of the
source are tagged with the data the source prints (offending iteration
index and coordinates for divergence, per-axis occupied-bin counts for low
diversity), and running to the end of the loop is `complete`. -/
inductive Verdict
  | diverged (i : ℕ) (p : List ℚ)
  | lowDiversity (counts : List ℕ)
  | complete
deriving DecidableEq, Repr

/-- Result of a generation run: final verdict plus the loop indices at
which the diversity check was actually executed. -/
structure RunResult where
  verdict : Verdict
  checks : List ℕ
deriving DecidableEq, Repr

/-- The generation loop shared by `get_attractor_2d_map` (src lines
285-300), `get_attractor_3d_map` (385-400) and `get_attractor_3d_flow`
(329-347), parametrized by the dimension count, the per-step transition
(direct map application, or the explicit Euler update in flow mode) and
the initial condition.  `fuel` counts the remaining loop iterations
(`num_points + plot_offset - 1` in total) and `i` is the loop index.
Each iteration computes `next = step(x[i])`, aborts with `diverged` if a
coordinate of `next` exceeds magnitude 10, and at `i == 300` runs
`check_histogram` on the windows `x[i-100:i]` of every axis, aborting
with `lowDiversity` if it rejects. -/
def runSteps (dims : ℕ) (step : List ℚ → List ℚ) (init : List ℚ) :
    ℕ → ℕ → RunResult
  | 0, _ => ⟨.complete, []⟩
  | fuel + 1, i =>
      if out_of_bounds (orbitL step init (i + 1)) then
        ⟨.diverged i (orbitL step init (i + 1)), []⟩
      else if i = 300 then
        if check_histogram
            ((List.range dims).map (fun a => axis_window step init a i)) then
          ⟨(runSteps dims step init fuel (i + 1)).verdict,
            i :: (runSteps dims step init fuel (i + 1)).checks⟩
        else
          ⟨.lowDiversity
            (((List.range dims).map (fun a => axis_window step init a i)).map
              diff_val), [i]⟩
      else runSteps dims step init fuel (i + 1)

/-- One step of a 2-dimensional map-mode run (src lines 287-290). -/
def step_2d_map (map_function : ℚ → ℚ → List ℚ → ℚ × ℚ) (c : List ℚ)
    (p : List ℚ) : List ℚ :=
  [(map_function (p.getD 0 0) (p.getD 1 0) c).1,
   (map_function (p.getD 0 0) (p.getD 1 0) c).2]

/-- One step of a 3-dimensional map-mode run (src lines 387-390). -/
def step_3d_map (map_function : ℚ → ℚ → ℚ → List ℚ → ℚ × ℚ × ℚ)
    (c : List ℚ) (p : List ℚ) : List ℚ :=
  [(map_function (p.getD 0 0) (p.getD 1 0) (p.getD 2 0) c).1,
   (map_function (p.getD 0 0) (p.getD 1 0) (p.getD 2 0) c).2.1,
   (map_function (p.getD 0 0) (p.getD 1 0) (p.getD 2 0) c).2.2]

/-- One step of a 3-dimensional flow-mode run (src lines 331-335): the
map value is scaled by the time step and added to the current point
(explicit Euler integration). -/
def step_3d_flow (map_function : ℚ → ℚ → ℚ → List ℚ → ℚ × ℚ × ℚ)
    (time : ℚ) (c : List ℚ) (p : List ℚ) : List ℚ :=
  [p.getD 0 0 + time * (map_function (p.getD 0 0) (p.getD 1 0) (p.getD 2 0) c).1,
   p.getD 1 0 + time * (map_function (p.getD 0 0) (p.getD 1 0) (p.getD 2 0) c).2.1,
   p.getD 2 0 + time * (map_function (p.getD 0 0) (p.getD 1 0) (p.getD 2 0) c).2.2]

/-- The fixed 2-dimensional initial condition `x[0], y[0] = 0.1, 0.1`. -/
def init2 : List ℚ := [1/10, 1/10]

/-- The fixed 3-dimensional initial condition. -/
def init3 : List ℚ := [1/10, 1/10, 1/10]

/-- Embedding of `get_attractor_2d_map` (src lines 274-313) up to the
plotting calls: decode the parameter string (a `KeyError` yields `none`),
then run the generation loop for `num_points + plot_offset - 1` steps. -/
def get_attractor_2d_map (parameter_string : List Char)
    (num_points plot_offset : ℕ)
    (map_function : ℚ → ℚ → List ℚ → ℚ × ℚ) : Option RunResult :=
  (get_coefficient parameter_string coeff_lookup).map (fun c =>
    runSteps 2 (step_2d_map map_function c) init2
      (num_points + plot_offset - 1) 0)

/-- Embedding of the generation loop of `get_attractor_3d_flow`
(src lines 317-347); the subsequent spline resampling of a completed
trajectory is modelled separately by `resample`. -/
def get_attractor_3d_flow (parameter_string : List Char) (time : ℚ)
    (num_points plot_offset : ℕ)
    (map_function : ℚ → ℚ → ℚ → List ℚ → ℚ × ℚ × ℚ) : Option RunResult :=
  (get_coefficient parameter_string coeff_lookup).map (fun c =>
    runSteps 3 (step_3d_flow map_function time c) init3
      (num_points + plot_offset - 1) 0)

/-- Embedding of the generation loop of `get_attractor_3d_map`
(src lines 373-413). -/
def get_attractor_3d_map (parameter_string : List Char)
    (num_points plot_offset : ℕ)
    (map_function : ℚ → ℚ → ℚ → List ℚ → ℚ × ℚ × ℚ) : Option RunResult :=
  (get_coefficient parameter_string coeff_lookup).map (fun c =>
    runSteps 3 (step_3d_map map_function c) init3
      (num_points + plot_offset - 1) 0)

/-- Access-checked variant of the generation loop, used to state memory
safety.  The preallocated numpy buffers of capacity `cap` are replaced by
the list `acc` of points written so far: reading an index that was never
written (`np.empty` garbage) and writing past the capacity both return
`none`; the checkpoint windows are read entry by entry through `mapM`,
failing if any window index is unwritten. -/
def runStepsChecked (dims : ℕ) (step : List ℚ → List ℚ) (cap : ℕ) :
    ℕ → ℕ → List (List ℚ) → Option (RunResult × List (List ℚ))
  | 0, _, acc => some (⟨.complete, []⟩, acc)
  | fuel + 1, i, acc =>
      (acc[i]?).bind (fun p =>
        if i + 1 < cap then
          if out_of_bounds (step p) then
            some (⟨.diverged i (step p), []⟩, acc ++ [step p])
          else if i = 300 then
            ((List.range 100).mapM
                (fun k => (acc ++ [step p])[i - 100 + k]?)).bind (fun wps =>
              if check_histogram
                  ((List.range dims).map
                    (fun a => wps.map (fun q => q.getD a 0))) then
                (runStepsChecked dims step cap fuel (i + 1)
                    (acc ++ [step p])).bind (fun rb =>
                  some (⟨rb.1.verdict, i :: rb.1.checks⟩, rb.2))
              else
                some (⟨.lowDiversity
                  ((((List.range dims).map
                    (fun a => wps.map (fun q => q.getD a 0)))).map
                      diff_val), [i]⟩, acc ++ [step p]))
          else runStepsChecked dims step cap fuel (i + 1) (acc ++ [step p])
        else none)

/-- `np.linspace(a, b, n)`: `n` evenly spaced values from `a` to `b`
inclusive. -/
def linspace (a b : ℚ) (n : ℕ) : List ℚ :=
  if n ≤ 1 then (List.range n).map (fun _ => a)
  else (List.range n).map
    (fun k : ℕ => a + (b - a) * (k : ℚ) / ((n : ℚ) - 1))

/-- Modelled from the spec: `scipy.interpolate.InterpolatedUnivariateSpline`
(src line 34, applied at lines 354-356) is external library code; §4.5
specifies the Resampler as an order-1-or-higher exactly interpolating
spline per axis, so it is modelled as the order-1 interpolating spline
through the samples `xs` taken at the integer parameters `0, 1, ...`. -/
def splineEval (xs : List ℚ) (t : ℚ) : ℚ :=
  if min (Int.toNat ⌊t⌋) (xs.length - 1) + 1 < xs.length then
    xs.getD (min (Int.toNat ⌊t⌋) (xs.length - 1)) 0
      + (t - ((min (Int.toNat ⌊t⌋) (xs.length - 1) : ℕ) : ℚ))
        * (xs.getD (min (Int.toNat ⌊t⌋) (xs.length - 1) + 1) 0
            - xs.getD (min (Int.toNat ⌊t⌋) (xs.length - 1)) 0)
  else xs.getD (min (Int.toNat ⌊t⌋) (xs.length - 1)) 0

/-- Embedding of the resampling step of `get_attractor_3d_flow`
(src lines 349-356) for one axis: evaluate the interpolating curve through
the trajectory `xs` at `num_points * interpolate + plot_offset` evenly
spaced parameter values spanning `[t.min(), t.max()] = [0, P+F-1]`. -/
def resample (xs : List ℚ) (num_points plot_offset interpolate : ℕ) :
    List ℚ :=
  (linspace 0 ((num_points + plot_offset : ℚ) - 1)
    (num_points * interpolate + plot_offset)).map (splineEval xs)

lemma map_2d_12_eq_polyEval (x y : ℚ) (c : List ℚ) :
    map_2d_12 x y c =
      (polyEval2 mons_2d_12 c 0 x y, polyEval2 mons_2d_12 c 6 x y) := by
  simp only [map_2d_12, mons_2d_12, polyEval2]
  norm_num
  constructor <;> ring

lemma map_2d_20_eq_polyEval (x y : ℚ) (c : List ℚ) :
    map_2d_20 x y c =
      (polyEval2 mons_2d_20 c 0 x y, polyEval2 mons_2d_20 c 10 x y) := by
  simp only [map_2d_20, mons_2d_20, polyEval2]
  norm_num
  constructor <;> ring

lemma map_3d_30_eq_polyEval (x y z : ℚ) (c : List ℚ) :
    map_3d_30 x y z c =
      (polyEval3 mons_3d_30 c 0 x y z, polyEval3 mons_3d_30 c 10 x y z,
        polyEval3 mons_3d_30 c 20 x y z) := by
  simp only [map_3d_30, mons_3d_30, polyEval3]
  norm_num
  refine ⟨by ring, by ring, by ring⟩

lemma map_3d_60_eq_polyEval (x y z : ℚ) (c : List ℚ) :
    map_3d_60 x y z c =
      (polyEval3 mons_3d_60 c 0 x y z, polyEval3 mons_3d_60 c 20 x y z,
        polyEval3 mons_3d_60 c 40 x y z) := by
  simp only [map_3d_60, mons_3d_60, polyEval3]
  norm_num
  refine ⟨by ring, by ring, by ring⟩

lemma map_3d_105_eq_polyEval (x y z : ℚ) (c : List ℚ) :
    map_3d_105 x y z c =
      (polyEval3 mons_3d_105 c 0 x y z, polyEval3 mons_3d_105 c 35 x y z,
        polyEval3 mons_3d_105 c 70 x y z) := by
  simp only [map_3d_105, mons_3d_105, polyEval3]
  norm_num
  refine ⟨by ring, by ring, by ring⟩

lemma mem_mons_2d_12 (m : ℕ × ℕ) : m ∈ mons_2d_12 ↔ m.1 + m.2 ≤ 2 := by
  obtain ⟨a, b⟩ := m
  dsimp only
  constructor
  · intro h; fin_cases h <;> decide
  · intro h
    have ha : a ≤ 2 := by omega
    have hb : b ≤ 2 := by omega
    interval_cases a <;> interval_cases b <;> first | decide | omega

lemma mem_mons_2d_20 (m : ℕ × ℕ) : m ∈ mons_2d_20 ↔ m.1 + m.2 ≤ 3 := by
  obtain ⟨a, b⟩ := m
  dsimp only
  constructor
  · intro h; fin_cases h <;> decide
  · intro h
    have ha : a ≤ 3 := by omega
    have hb : b ≤ 3 := by omega
    interval_cases a <;> interval_cases b <;> first | decide | omega

lemma mem_mons_3d_30 (m : ℕ × ℕ × ℕ) :
    m ∈ mons_3d_30 ↔ m.1 + m.2.1 + m.2.2 ≤ 2 := by
  obtain ⟨a, b, c⟩ := m
  dsimp only
  constructor
  · intro h; fin_cases h <;> decide
  · intro h
    have ha : a ≤ 2 := by omega
    have hb : b ≤ 2 := by omega
    have hc : c ≤ 2 := by omega
    interval_cases a <;> interval_cases b <;> interval_cases c <;>
      first | decide | omega

lemma mem_mons_3d_60 (m : ℕ × ℕ × ℕ) :
    m ∈ mons_3d_60 ↔ m.1 + m.2.1 + m.2.2 ≤ 3 := by
  obtain ⟨a, b, c⟩ := m
  dsimp only
  constructor
  · intro h; fin_cases h <;> decide
  · intro h
    have ha : a ≤ 3 := by omega
    have hb : b ≤ 3 := by omega
    have hc : c ≤ 3 := by omega
    interval_cases a <;> interval_cases b <;> interval_cases c <;>
      first | decide | omega

lemma mem_mons_3d_105 (m : ℕ × ℕ × ℕ) :
    m ∈ mons_3d_105 ↔ m.1 + m.2.1 + m.2.2 ≤ 4 := by
  obtain ⟨a, b, c⟩ := m
  dsimp only
  constructor
  · intro h; fin_cases h <;> decide
  · intro h
    have ha : a ≤ 4 := by omega
    have hb : b ≤ 4 := by omega
    have hc : c ≤ 4 := by omega
    interval_cases a <;> interval_cases b <;> interval_cases c <;>
      first | decide | omega

lemma polyEval2_congr (mons : List (ℕ × ℕ)) (c₁ c₂ : List ℚ) (x y : ℚ) :
    ∀ off : ℕ, (∀ j, off ≤ j → j < off + mons.length →
        c₁.getD j 0 = c₂.getD j 0) →
      polyEval2 mons c₁ off x y = polyEval2 mons c₂ off x y := by
  induction mons with
  | nil => intro off _; rfl
  | cons m ms ih =>
      intro off h
      simp only [polyEval2]
      rw [h off (le_refl off) (by simp), ih (off + 1) (fun j h1 h2 =>
        h j (by omega) (by simp at h2 ⊢; omega))]

lemma polyEval3_congr (mons : List (ℕ × ℕ × ℕ)) (c₁ c₂ : List ℚ)
    (x y z : ℚ) :
    ∀ off : ℕ, (∀ j, off ≤ j → j < off + mons.length →
        c₁.getD j 0 = c₂.getD j 0) →
      polyEval3 mons c₁ off x y z = polyEval3 mons c₂ off x y z := by
  induction mons with
  | nil => intro off _; rfl
  | cons m ms ih =>
      intro off h
      simp only [polyEval3]
      rw [h off (le_refl off) (by simp), ih (off + 1) (fun j h1 h2 =>
        h j (by omega) (by simp at h2 ⊢; omega))]

lemma dedup_length_map_le {α β : Type} [DecidableEq α] [DecidableEq β]
    (f : α → β) (l : List α) :
    (l.map f).dedup.length ≤ l.dedup.length := by
  have h1 : (l.map f).toFinset = l.toFinset.image f := by
    rw [← List.toFinset_coe, ← List.toFinset_coe, ← Multiset.map_coe,
      Multiset.toFinset_map]
  have h2 : (l.toFinset.image f).card ≤ l.toFinset.card :=
    Finset.card_image_le
  rw [← h1, List.card_toFinset, List.card_toFinset] at h2
  exact h2

lemma occupied_bins_le_dedup (r : List ℚ) :
    occupied_bins r ≤ r.dedup.length := by
  unfold occupied_bins
  rcases hmn : r.min? with _ | mn
  · simp
  · rcases hmx : r.max? with _ | mx
    · simp
    · simp only
      split
      · have hne : r ≠ [] := by
          intro h; rw [h] at hmn; simp [List.min?] at hmn
        obtain ⟨a, ha⟩ := List.exists_mem_of_ne_nil r hne
        have h1 : a ∈ r.dedup := List.mem_dedup.mpr ha
        have h2 := List.length_pos.mpr (List.ne_nil_of_mem h1)
        omega
      · exact dedup_length_map_le _ r

lemma diff_val_le_dedup (w : List ℚ) :
    diff_val w ≤ ((w.map np_round3).dedup).length :=
  occupied_bins_le_dedup (w.map np_round3)

lemma runSteps_checks_spec (dims : ℕ) (step : List ℚ → List ℚ)
    (init : List ℚ) :
    ∀ fuel i s, s ∈ (runSteps dims step init fuel i).checks →
      s = 300 ∧ i ≤ 300 ∧ 300 < i + fuel := by
  intro fuel
  induction fuel with
  | zero => intro i s h; simp [runSteps] at h
  | succ f ih =>
      intro i s h
      simp only [runSteps] at h
      by_cases hoob : out_of_bounds (orbitL step init (i + 1)) = true
      · rw [if_pos hoob] at h; simp at h
      · rw [if_neg hoob] at h
        by_cases h300 : i = 300
        · subst h300
          rw [if_pos rfl] at h
          by_cases hch : check_histogram
              ((List.range dims).map (fun a => axis_window step init a 300))
              = true
          · rw [if_pos hch] at h
            dsimp only at h
            rcases List.mem_cons.mp h with h | h
            · omega
            · obtain ⟨h1, h2, h3⟩ := ih _ _ h
              omega
          · rw [if_neg hch] at h
            dsimp only at h
            rcases List.mem_singleton.mp h with h
            omega
        · rw [if_neg h300] at h
          obtain ⟨h1, h2, h3⟩ := ih _ _ h
          omega

lemma runSteps_short_no_filter (dims : ℕ) (step : List ℚ → List ℚ)
    (init : List ℚ) :
    ∀ fuel i, i + fuel ≤ 300 →
      (runSteps dims step init fuel i).checks = [] ∧
      ∀ cs, (runSteps dims step init fuel i).verdict ≠ .lowDiversity cs := by
  intro fuel
  induction fuel with
  | zero => intro i _; exact ⟨rfl, fun cs h => by cases h⟩
  | succ f ih =>
      intro i hle
      simp only [runSteps]
      by_cases hoob : out_of_bounds (orbitL step init (i + 1)) = true
      · rw [if_pos hoob]; exact ⟨rfl, fun cs h => by cases h⟩
      · rw [if_neg hoob, if_neg (by omega : ¬i = 300)]
        exact ih (i + 1) (by omega)

lemma runSteps_check_executed (dims : ℕ) (step : List ℚ → List ℚ)
    (init : List ℚ) :
    ∀ fuel i, i ≤ 300 → 300 < i + fuel →
      (∀ j, i < j → j ≤ 301 → out_of_bounds (orbitL step init j) = false) →
      300 ∈ (runSteps dims step init fuel i).checks := by
  intro fuel
  induction fuel with
  | zero => intro i h1 h2 _; omega
  | succ f ih =>
      intro i h1 h2 hb
      simp only [runSteps]
      rw [if_neg (by rw [hb (i + 1) (by omega) (by omega)]; simp)]
      by_cases h300 : i = 300
      · subst h300
        rw [if_pos rfl]
        by_cases hch : check_histogram
            ((List.range dims).map (fun a => axis_window step init a 300))
            = true
        · rw [if_pos hch]; exact List.mem_cons_self _ _
        · rw [if_neg hch]; exact List.mem_singleton.mpr rfl
      · rw [if_neg h300]
        exact ih (i + 1) (by omega) (by omega)
          (fun j hj1 hj2 => hb j (by omega) hj2)

lemma runSteps_diverged_spec (dims : ℕ) (step : List ℚ → List ℚ)
    (init : List ℚ) :
    ∀ fuel i k p, (runSteps dims step init fuel i).verdict = .diverged k p →
      out_of_bounds p = true ∧ p = orbitL step init (k + 1) ∧
        i ≤ k ∧ k < i + fuel := by
  intro fuel
  induction fuel with
  | zero => intro i k p h; cases h
  | succ f ih =>
      intro i k p h
      simp only [runSteps] at h
      by_cases hoob : out_of_bounds (orbitL step init (i + 1)) = true
      · rw [if_pos hoob] at h
        dsimp only at h
        cases h
        exact ⟨hoob, rfl, le_refl i, by omega⟩
      · rw [if_neg hoob] at h
        by_cases h300 : i = 300
        · subst h300
          rw [if_pos rfl] at h
          by_cases hch : check_histogram
              ((List.range dims).map (fun a => axis_window step init a 300))
              = true
          · rw [if_pos hch] at h
            dsimp only at h
            obtain ⟨h1, h2, h3, h4⟩ := ih _ _ _ h
            exact ⟨h1, h2, by omega, by omega⟩
          · rw [if_neg hch] at h
            cases h
        · rw [if_neg h300] at h
          obtain ⟨h1, h2, h3, h4⟩ := ih _ _ _ h
          exact ⟨h1, h2, by omega, by omega⟩

lemma runSteps_complete_spec (dims : ℕ) (step : List ℚ → List ℚ)
    (init : List ℚ) :
    ∀ fuel i, (runSteps dims step init fuel i).verdict = .complete →
      ∀ j, i < j → j ≤ i + fuel →
        out_of_bounds (orbitL step init j) = false := by
  intro fuel
  induction fuel with
  | zero => intro i _ j h1 h2; omega
  | succ f ih =>
      intro i h j hj1 hj2
      simp only [runSteps] at h
      by_cases hoob : out_of_bounds (orbitL step init (i + 1)) = true
      · rw [if_pos hoob] at h; cases h
      · rw [if_neg hoob] at h
        have hoob2 : out_of_bounds (orbitL step init (i + 1)) = false :=
          Bool.not_eq_true _ ▸ (by simpa using hoob)
        by_cases hij : j = i + 1
        · rw [hij]; exact hoob2
        · by_cases h300 : i = 300
          · subst h300
            rw [if_pos rfl] at h
            by_cases hch : check_histogram
                ((List.range dims).map (fun a => axis_window step init a 300))
                = true
            · rw [if_pos hch] at h
              dsimp only at h
              exact ih _ h j (by omega) (by omega)
            · rw [if_neg hch] at h; cases h
          · rw [if_neg h300] at h
            exact ih _ h j (by omega) (by omega)

lemma runSteps_diverged_at (dims : ℕ) (step : List ℚ → List ℚ)
    (init : List ℚ) :
    ∀ fuel i k, i ≤ k → k < i + fuel →
      (∀ j, i < j → j ≤ k → out_of_bounds (orbitL step init j) = false) →
      out_of_bounds (orbitL step init (k + 1)) = true →
      (i ≤ 300 → 300 < k → check_histogram
        ((List.range dims).map (fun a => axis_window step init a 300))
          = true) →
      (runSteps dims step init fuel i).verdict
        = .diverged k (orbitL step init (k + 1)) := by
  intro fuel
  induction fuel with
  | zero => intro i k h1 h2; omega
  | succ f ih =>
      intro i k hik hk hb hoob hhist
      simp only [runSteps]
      by_cases hik2 : i = k
      · subst hik2
        rw [if_pos hoob]
      · rw [if_neg (by rw [hb (i + 1) (by omega) (by omega)]; simp)]
        by_cases h300 : i = 300
        · subst h300
          rw [if_pos rfl, if_pos (hhist (le_refl _) (by omega))]
          dsimp only
          rw [ih (300 + 1) k (by omega) (by omega)
            (fun j hj1 hj2 => hb j (by omega) hj2) hoob
            (fun hc => absurd hc (by omega))]
        · rw [if_neg h300]
          exact ih (i + 1) k (by omega) (by omega)
            (fun j hj1 hj2 => hb j (by omega) hj2) hoob
            (fun hc h2 => hhist (by omega) h2)

/- Batteries marks the core rational arithmetic operations `@[irreducible]`
for rewriting ergonomics; the concrete evaluations below restore their
normal reducibility so that `decide` can compute with exact rationals.
This only changes elaborator unfolding behaviour, not the logic. -/
set_option allowUnsafeReducibility true
attribute [local semireducible] Rat.mul Rat.add Rat.sub Rat.inv
set_option maxRecDepth 40000

lemma getD_replicate_zero (n k : ℕ) :
    (List.replicate n (0 : ℚ)).getD k 0 = 0 := by
  rcases Nat.lt_or_ge k n with h | h
  · rw [List.getD_eq_getElem _ _ (by simpa using h)]
    simp
  · exact List.getD_eq_default _ _ (by simpa using h)

lemma map_2d_12_zero (x y : ℚ) :
    map_2d_12 x y (List.replicate 12 (0 : ℚ)) = (0, 0) := by
  simp only [map_2d_12, getD_replicate_zero]
  norm_num

lemma step_2d_allM (p : List ℚ) :
    step_2d_map map_2d_12 (List.replicate 12 (0 : ℚ)) p = [0, 0] := by
  simp only [step_2d_map, map_2d_12_zero]

lemma orbit_allM (n : ℕ) :
    orbitL (step_2d_map map_2d_12 (List.replicate 12 (0 : ℚ))) init2 (n + 1)
      = [0, 0] := by
  simp only [orbitL, step_2d_allM]

lemma getD_pair_zero (a : ℕ) : ([0, 0] : List ℚ).getD a 0 = 0 := by
  rcases a with _ | _ | a
  · rfl
  · rfl
  · exact List.getD_eq_default _ _ (by simp)

lemma window_allM (a : ℕ) :
    axis_window (step_2d_map map_2d_12 (List.replicate 12 (0 : ℚ))) init2 a 300
      = List.replicate 100 0 := by
  unfold axis_window
  have h : ∀ k ∈ List.range 100,
      (orbitL (step_2d_map map_2d_12 (List.replicate 12 (0 : ℚ))) init2
        (300 - 100 + k)).getD a 0 = (fun _ => (0 : ℚ)) k := by
    intro k _
    have hk : 300 - 100 + k = (199 + k) + 1 := by omega
    rw [hk, orbit_allM, getD_pair_zero]
  rw [List.map_congr_left h]
  simp

lemma run_allM :
    ∀ fuel i, i ≤ 300 → 300 < i + fuel →
      runSteps 2 (step_2d_map map_2d_12 (List.replicate 12 (0 : ℚ))) init2
          fuel i
        = ⟨.lowDiversity [1, 1], [300]⟩ := by
  intro fuel
  induction fuel with
  | zero => intro i h1 h2; omega
  | succ f ih =>
      intro i h1 h2
      simp only [runSteps]
      rw [if_neg (by rw [orbit_allM i]; decide)]
      by_cases h300 : i = 300
      · subst h300
        rw [if_pos rfl]
        rw [show List.range 2 = [0, 1] from rfl, List.map_cons, List.map_cons,
          List.map_nil, window_allM, window_allM]
        rw [if_neg (by decide)]
        rw [show ([List.replicate 100 (0 : ℚ),
            List.replicate 100 0]).map diff_val = [1, 1] from by decide]
      · rw [if_neg h300]
        exact ih (i + 1) (by omega) (by omega)

lemma linspace_length (a b : ℚ) (n : ℕ) : (linspace a b n).length = n := by
  unfold linspace
  split
  · rw [List.length_map, List.length_range]
  · rw [List.length_map, List.length_range]

lemma linspace_getD (a b : ℚ) (n k : ℕ) (hk : k < n) (hn : 2 ≤ n) :
    (linspace a b n).getD k 0 = a + (b - a) * k / ((n : ℚ) - 1) := by
  unfold linspace
  rw [if_neg (by omega)]
  have hlen : ((List.range n).map
      (fun j : ℕ => a + (b - a) * (j : ℚ) / ((n : ℚ) - 1))).length = n := by
    rw [List.length_map, List.length_range]
  rw [List.getD_eq_getElem _ _ (by rw [hlen]; exact hk)]
  rw [List.getElem_map, List.getElem_range]

lemma linspace_first (a b : ℚ) (n : ℕ) (hn : 1 ≤ n) :
    (linspace a b n).getD 0 0 = a := by
  by_cases h : n ≤ 1
  · have hn1 : n = 1 := by omega
    subst hn1
    rfl
  · rw [linspace_getD _ _ _ _ (by omega) (by omega)]
    norm_num

lemma cast_sub_one (n : ℕ) (hn : 1 ≤ n) : ((n - 1 : ℕ) : ℚ) = (n : ℚ) - 1 := by
  rw [Nat.cast_sub hn]
  norm_num

lemma linspace_last (a b : ℚ) (n : ℕ) (hn : 2 ≤ n) :
    (linspace a b n).getD (n - 1) 0 = b := by
  rw [linspace_getD _ _ _ _ (by omega) hn]
  have hne : ((n : ℚ) - 1) ≠ 0 := by
    have h2 : (2 : ℚ) ≤ (n : ℚ) := by exact_mod_cast hn
    linarith
  rw [cast_sub_one n (by omega)]
  field_simp

lemma linspace_spacing (a b : ℚ) (n k : ℕ) (h : k + 1 < n) :
    (linspace a b n).getD (k + 1) 0 - (linspace a b n).getD k 0
      = (b - a) / ((n : ℚ) - 1) := by
  rw [linspace_getD _ _ _ _ (by omega) (by omega),
    linspace_getD _ _ _ _ (by omega) (by omega)]
  have hne : ((n : ℚ) - 1) ≠ 0 := by
    have h2 : (2 : ℚ) ≤ (n : ℚ) := by exact_mod_cast (by omega : 2 ≤ n)
    linarith
  push_cast
  field_simp
  ring

lemma splineEval_nat (xs : List ℚ) (k : ℕ) (hk : k < xs.length) :
    splineEval xs (k : ℚ) = xs.getD k 0 := by
  have h1 : Int.toNat ⌊(k : ℚ)⌋ = k := by
    rw [Int.floor_natCast]
    exact Int.toNat_natCast k
  have h2 : min (Int.toNat ⌊(k : ℚ)⌋) (xs.length - 1) = k := by
    rw [h1]; omega
  unfold splineEval
  rw [h2]
  split
  · rw [sub_self, zero_mul, add_zero]
  · rfl

lemma list_eq_map_getD (xs : List ℚ) :
    (List.range xs.length).map (fun k => xs.getD k 0) = xs := by
  apply List.ext_getElem
  · rw [List.length_map, List.length_range]
  · intro i h1 h2
    rw [List.getElem_map, List.getElem_range, List.getD_eq_getElem _ _ h2]

lemma resample_length (xs : List ℚ) (P F I : ℕ) :
    (resample xs P F I).length = P * I + F := by
  unfold resample
  rw [List.length_map, linspace_length]

lemma resample_one (xs : List ℚ) (P F : ℕ) (hP : 1 ≤ P)
    (hlen : xs.length = P + F) :
    resample xs P F 1 = xs := by
  unfold resample
  rw [Nat.mul_one]
  rcases Nat.lt_or_ge (P + F) 2 with h2 | h2
  · have h1 : P = 1 ∧ F = 0 := by omega
    obtain ⟨hp1, hf0⟩ := h1
    subst hp1; subst hf0
    obtain ⟨v, hv⟩ := List.length_eq_one.mp (by simpa using hlen)
    subst hv
    norm_num
    rw [show linspace 0 0 1 = [0] from rfl, List.map_cons, List.map_nil]
    rw [show (0 : ℚ) = ((0 : ℕ) : ℚ) from by norm_num,
      splineEval_nat [v] 0 (by simp)]
    rfl
  · apply List.ext_getElem
    · rw [List.length_map, linspace_length, hlen]
    · intro i hi1 hi2
      have hi : i < P + F := by
        rw [List.length_map, linspace_length] at hi1
        exact hi1
      have hne : ((P : ℚ) + (F : ℚ)) - 1 ≠ 0 := by
        have hc : (2 : ℚ) ≤ ((P + F : ℕ) : ℚ) := by exact_mod_cast h2
        push_cast at hc
        linarith
      have hnode : (linspace 0 ((P : ℚ) + (F : ℚ) - 1) (P + F)).getD i 0
          = (i : ℚ) := by
        rw [linspace_getD _ _ _ _ hi h2]
        push_cast
        field_simp
      have hmap : (List.map (splineEval xs)
          (linspace 0 ((P : ℚ) + (F : ℚ) - 1) (P + F)))[i] =
          splineEval xs
            ((linspace 0 ((P : ℚ) + (F : ℚ) - 1) (P + F)).getD i 0) := by
        rw [List.getElem_map]
        congr 1
        rw [List.getD_eq_getElem _ _ (by rw [linspace_length]; exact hi)]
      rw [hmap, hnode, splineEval_nat xs i (by omega),
        List.getD_eq_getElem _ _ (by omega)]

lemma orbit_prefix_getElem (step : List ℚ → List ℚ) (init : List ℚ)
    (n j : ℕ) (hj : j < n) :
    ((List.range n).map (orbitL step init))[j]?
      = some (orbitL step init j) := by
  rw [List.getElem?_eq_getElem
    (by rw [List.length_map, List.length_range]; exact hj)]
  rw [List.getElem_map, List.getElem_range]

lemma orbit_prefix_getD (step : List ℚ → List ℚ) (init : List ℚ)
    (n j : ℕ) (hj : j < n) :
    ((List.range n).map (orbitL step init)).getD j []
      = orbitL step init j := by
  rw [List.getD_eq_getElem _ _
    (by rw [List.length_map, List.length_range]; exact hj)]
  rw [List.getElem_map, List.getElem_range]

lemma orbit_prefix_snoc (step : List ℚ → List ℚ) (init : List ℚ) (i : ℕ) :
    (List.range (i + 1)).map (orbitL step init)
        ++ [orbitL step init (i + 1)]
      = (List.range (i + 2)).map (orbitL step init) := by
  conv_rhs => rw [show i + 2 = (i + 1) + 1 from rfl, List.range_succ,
    List.map_append]
  rfl

lemma mapM_getElem_off (L : List (List ℚ)) (off : ℕ) :
    ∀ l : List ℕ, (∀ j ∈ l, off + j < L.length) →
      l.mapM (fun k => L[off + k]?)
        = some (l.map (fun k => L.getD (off + k) [])) := by
  intro l
  induction l with
  | nil => intro _; rfl
  | cons j t ih =>
      intro h
      rw [List.mapM_cons]
      have hj : off + j < L.length := h j (by simp)
      rw [List.getElem?_eq_getElem hj]
      rw [ih (fun x hx => h x (by simp [hx]))]
      simp [List.getD_eq_getElem _ _ hj, List.getElem?_eq_getElem hj]

lemma runStepsChecked_eq (dims : ℕ) (step : List ℚ → List ℚ)
    (init : List ℚ) (total : ℕ) :
    ∀ fuel i, i + fuel + 1 ≤ total →
      ∃ buf,
        runStepsChecked dims step total fuel i
            ((List.range (i + 1)).map (orbitL step init))
          = some (runSteps dims step init fuel i, buf) ∧
        buf.length ≤ total := by
  intro fuel
  induction fuel with
  | zero =>
      intro i hle
      refine ⟨(List.range (i + 1)).map (orbitL step init), rfl, ?_⟩
      rw [List.length_map, List.length_range]
      omega
  | succ f ih =>
      intro i hle
      simp only [runStepsChecked]
      rw [orbit_prefix_getElem step init (i + 1) i (by omega)]
      rw [Option.some_bind]
      rw [if_pos (by omega : i + 1 < total)]
      have hstep : step (orbitL step init i) = orbitL step init (i + 1) := rfl
      rw [hstep, orbit_prefix_snoc step init i]
      simp only [runSteps]
      by_cases hoob : out_of_bounds (orbitL step init (i + 1)) = true
      · rw [if_pos hoob, if_pos hoob]
        refine ⟨_, rfl, ?_⟩
        rw [List.length_map, List.length_range]
        omega
      · rw [if_neg hoob, if_neg hoob]
        by_cases h300 : i = 300
        · subst h300
          rw [if_pos rfl, if_pos rfl]
          rw [mapM_getElem_off _ (300 - 100) (List.range 100) (fun j hj => by
            rw [List.length_map, List.length_range]
            have := List.mem_range.mp hj
            omega)]
          rw [Option.some_bind]
          have hwin : (List.range dims).map (fun a =>
              ((List.range 100).map (fun j =>
                ((List.range (300 + 2)).map (orbitL step init)).getD
                  (300 - 100 + j) [])).map (fun q => q.getD a 0))
              = (List.range dims).map
                  (fun a => axis_window step init a 300) := by
            apply List.map_congr_left
            intro a _
            rw [List.map_map]
            apply List.map_congr_left
            intro k hk
            have hk100 := List.mem_range.mp hk
            simp only [Function.comp]
            rw [orbit_prefix_getD step init (300 + 2) (300 - 100 + k)
              (by omega)]
          rw [hwin]
          by_cases hch : check_histogram
              ((List.range dims).map (fun a => axis_window step init a 300))
              = true
          · rw [if_pos hch, if_pos hch]
            obtain ⟨buf, hbuf, hblen⟩ := ih 301 (by omega)
            rw [show (300 : ℕ) + 2 = 301 + 1 from rfl, hbuf, Option.some_bind]
            exact ⟨buf, rfl, hblen⟩
          · rw [if_neg hch, if_neg hch]
            refine ⟨_, rfl, ?_⟩
            rw [List.length_map, List.length_range]
            omega
        · rw [if_neg h300, if_neg h300]
          exact ih (i + 1) (by omega)

lemma coeff_keys_lookup :
    ∀ ch ∈ coeff_keys, ∃ v ∈ coeff.map (fun p => p.2),
      coeff_lookup ch = some v := by decide

lemma coeff_values_range :
    ∀ v ∈ coeff.map (fun p => p.2), -12/10 ≤ v ∧ v ≤ 13/10 := by decide

lemma decode_of_keys :
    ∀ s : List Char, (∀ ch ∈ s, ch ∈ coeff_keys) →
      ∃ cs, get_coefficient s coeff_lookup = some cs ∧
        cs.length = s.length ∧ ∀ v ∈ cs, v ∈ coeff.map (fun p => p.2) := by
  intro s
  induction s with
  | nil => intro _; exact ⟨[], rfl, rfl, by simp⟩
  | cons c t ih =>
      intro h
      obtain ⟨v, hvm, hv⟩ := coeff_keys_lookup c (h c (by simp))
      obtain ⟨cs, hcs, hlen, hvals⟩ := ih (fun x hx => h x (by simp [hx]))
      refine ⟨v :: cs, ?_, by simp [hlen], ?_⟩
      · unfold get_coefficient at hcs ⊢
        rw [List.mapM_cons, hv, hcs]
        rfl
      · intro w hw
        rcases List.mem_cons.mp hw with hw | hw
        · rw [hw]; exact hvm
        · exact hvals w hw

lemma orbit_unique (step : List ℚ → List ℚ) (init : List ℚ)
    (t : ℕ → List ℚ) (h0 : t 0 = init)
    (hs : ∀ n, t (n + 1) = step (t n)) :
    ∀ n, t n = orbitL step init n := by
  intro n
  induction n with
  | zero => exact h0
  | succ k ih => rw [hs k, ih]; rfl

/-- Claim C5: the map-family lookup returns the evaluator of each of the
five supported family names and yields no evaluator (the Python function
returns `None`, modelled as `Option.none`) for every other name. -/
theorem claim_C5 :
    get_map_function "3d_30" = some (.dim3 map_3d_30) ∧
    get_map_function "3d_60" = some (.dim3 map_3d_60) ∧
    get_map_function "3d_105" = some (.dim3 map_3d_105) ∧
    get_map_function "2d_12" = some (.dim2 map_2d_12) ∧
    get_map_function "2d_20" = some (.dim2 map_2d_20) ∧
    ∀ m : String,
      m ∉ (["3d_30", "3d_60", "3d_105", "2d_12", "2d_20"] : List String) →
      get_map_function m = none := by
  refine ⟨rfl, rfl, rfl, rfl, rfl, ?_⟩
  intro m hm
  simp only [List.mem_cons, List.mem_singleton, not_or] at hm
  obtain ⟨h1, h2, h3, h4, h5⟩ := hm
  simp [get_map_function, h1, h2, h3, h4, h5]

theorem claim_C5_wit : get_map_function "lorenz" = none :=
  claim_C5.2.2.2.2.2 "lorenz" (by decide)

/-- Claim C6: each map family is the polynomial with one independent
coefficient per monomial, taken from consecutive disjoint slices of the
coefficient vector (one slice per output coordinate, slice length = the
family's monomial count); the monomial lists enumerate, without
repetition, exactly the monomials of total degree at most the family's
degree (2, 3, 2, 3, 4 respectively), always containing the constant term;
the resulting arities are 12, 20, 30, 60 and 105. -/
theorem claim_C6 :
    (∀ x y c, map_2d_12 x y c
      = (polyEval2 mons_2d_12 c 0 x y, polyEval2 mons_2d_12 c 6 x y)) ∧
    (∀ m : ℕ × ℕ, m ∈ mons_2d_12 ↔ m.1 + m.2 ≤ 2) ∧
    mons_2d_12.Nodup ∧
    (∀ x y c, map_2d_20 x y c
      = (polyEval2 mons_2d_20 c 0 x y, polyEval2 mons_2d_20 c 10 x y)) ∧
    (∀ m : ℕ × ℕ, m ∈ mons_2d_20 ↔ m.1 + m.2 ≤ 3) ∧
    mons_2d_20.Nodup ∧
    (∀ x y z c, map_3d_30 x y z c
      = (polyEval3 mons_3d_30 c 0 x y z, polyEval3 mons_3d_30 c 10 x y z,
          polyEval3 mons_3d_30 c 20 x y z)) ∧
    (∀ m : ℕ × ℕ × ℕ, m ∈ mons_3d_30 ↔ m.1 + m.2.1 + m.2.2 ≤ 2) ∧
    mons_3d_30.Nodup ∧
    (∀ x y z c, map_3d_60 x y z c
      = (polyEval3 mons_3d_60 c 0 x y z, polyEval3 mons_3d_60 c 20 x y z,
          polyEval3 mons_3d_60 c 40 x y z)) ∧
    (∀ m : ℕ × ℕ × ℕ, m ∈ mons_3d_60 ↔ m.1 + m.2.1 + m.2.2 ≤ 3) ∧
    mons_3d_60.Nodup ∧
    (∀ x y z c, map_3d_105 x y z c
      = (polyEval3 mons_3d_105 c 0 x y z, polyEval3 mons_3d_105 c 35 x y z,
          polyEval3 mons_3d_105 c 70 x y z)) ∧
    (∀ m : ℕ × ℕ × ℕ, m ∈ mons_3d_105 ↔ m.1 + m.2.1 + m.2.2 ≤ 4) ∧
    mons_3d_105.Nodup ∧
    ((0, 0) ∈ mons_2d_12 ∧ (0, 0) ∈ mons_2d_20 ∧ (0, 0, 0) ∈ mons_3d_30 ∧
      (0, 0, 0) ∈ mons_3d_60 ∧ (0, 0, 0) ∈ mons_3d_105) ∧
    2 * mons_2d_12.length = 12 ∧ 2 * mons_2d_20.length = 20 ∧
    3 * mons_3d_30.length = 30 ∧ 3 * mons_3d_60.length = 60 ∧
    3 * mons_3d_105.length = 105 :=
  ⟨map_2d_12_eq_polyEval, mem_mons_2d_12, by decide,
   map_2d_20_eq_polyEval, mem_mons_2d_20, by decide,
   map_3d_30_eq_polyEval, mem_mons_3d_30, by decide,
   map_3d_60_eq_polyEval, mem_mons_3d_60, by decide,
   map_3d_105_eq_polyEval, mem_mons_3d_105, by decide,
   ⟨by decide, by decide, by decide, by decide, by decide⟩,
   by decide, by decide, by decide, by decide, by decide⟩

/-- Claim C9: the random-string generator (with `random.choice` modelled
as an arbitrary in-range index oracle) returns exactly `n` characters,
all alphabet keys, so decoding its output never fails and yields `n`
coefficients among the 26 alphabet values, all within [-1.2, 1.3]. -/
theorem claim_C9 (pick : ℕ → Fin 26) (n : ℕ) :
    (get_random_string pick n).length = n ∧
    (∀ ch ∈ get_random_string pick n, ch ∈ coeff_keys) ∧
    ∃ cs, get_coefficient (get_random_string pick n) coeff_lookup = some cs ∧
      cs.length = n ∧
      ∀ v ∈ cs, v ∈ coeff.map (fun p => p.2) ∧ -12/10 ≤ v ∧ v ≤ 13/10 := by
  have hlen : (get_random_string pick n).length = n := by
    unfold get_random_string
    rw [List.length_map, List.length_range]
  have hmem : ∀ ch ∈ get_random_string pick n, ch ∈ coeff_keys := by
    intro ch hch
    unfold get_random_string at hch
    obtain ⟨i, _, hi⟩ := List.mem_map.mp hch
    have hlt : ((pick i) : ℕ) < coeff_keys.length := by
      have := (pick i).isLt
      rw [show coeff_keys.length = 26 from rfl]
      exact this
    rw [← hi, List.getD_eq_getElem _ _ hlt]
    exact List.getElem_mem hlt
  obtain ⟨cs, hcs, hcslen, hvals⟩ :=
    decode_of_keys (get_random_string pick n) hmem
  exact ⟨hlen, hmem, cs, hcs, by rw [hcslen, hlen], fun v hv =>
    ⟨hvals v hv, (coeff_values_range v (hvals v hv)).1,
      (coeff_values_range v (hvals v hv)).2⟩⟩

theorem claim_C9_wit :
    (get_random_string (fun _ => (0 : Fin 26)) 3).length = 3 ∧
    ∃ cs, get_coefficient (get_random_string (fun _ => (0 : Fin 26)) 3)
        coeff_lookup = some cs ∧ cs.length = 3 :=
  ⟨(claim_C9 (fun _ => 0) 3).1,
   (claim_C9 (fun _ => 0) 3).2.2.elim (fun cs h =>
     ⟨cs, h.1, h.2.1⟩)⟩

/-- Claim C1, counterexample to the claim as stated: with the all-`'M'`
parameter string every coefficient decodes to 0, and the point at index 1
of the generated trajectory is `(0, 0)`, not the initial condition
`(0.1, 0.1)` - so the trajectory is not constant at the initial
condition. -/
theorem claim_C1_cex :
    get_coefficient (List.replicate 12 'M') coeff_lookup
      = some (List.replicate 12 0) ∧
    orbitL (step_2d_map map_2d_12 (List.replicate 12 (0 : ℚ))) init2 1
      = [0, 0] ∧
    ([0, 0] : List ℚ) ≠ [1/10, 1/10] :=
  ⟨by decide, by decide, by decide⟩

/-- Claim C1 (amended): for family 2d_12 with the all-`'M'` parameter
string every decoded coefficient is 0, the map evaluates to `(0, 0)` on
every input, the trajectory is `(0.1, 0.1)` at index 0 and constant at
`(0, 0)` from index 1 on, and whenever `P + F > 301` the run is rejected
at the iteration-300 checkpoint with verdict LOW_DIVERSITY and 1 distinct
value per axis. -/
theorem claim_C1 (P F : ℕ) (h : 301 < P + F) :
    get_coefficient (List.replicate 12 'M') coeff_lookup
      = some (List.replicate 12 0) ∧
    (∀ x y, map_2d_12 x y (List.replicate 12 (0 : ℚ)) = (0, 0)) ∧
    orbitL (step_2d_map map_2d_12 (List.replicate 12 (0 : ℚ))) init2 0
      = [1/10, 1/10] ∧
    (∀ n, orbitL (step_2d_map map_2d_12 (List.replicate 12 (0 : ℚ))) init2
      (n + 1) = [0, 0]) ∧
    get_attractor_2d_map (List.replicate 12 'M') P F map_2d_12
      = some ⟨.lowDiversity [1, 1], [300]⟩ := by
  refine ⟨by decide, map_2d_12_zero, rfl, orbit_allM, ?_⟩
  unfold get_attractor_2d_map
  rw [show get_coefficient (List.replicate 12 'M') coeff_lookup
    = some (List.replicate 12 0) from by decide]
  rw [Option.map_some']
  rw [run_allM (P + F - 1) 0 (by omega) (by omega)]

theorem claim_C1_wit :
    get_attractor_2d_map (List.replicate 12 'M') 302 0 map_2d_12
      = some ⟨.lowDiversity [1, 1], [300]⟩ :=
  (claim_C1 302 0 (by norm_num)).2.2.2.2

/-- Second axis window of the claim C2 counterexample: one hundred
identical points. -/
def c2_window_y : List ℚ := List.replicate 100 0

/-- First axis window of the claim C2 counterexample: fifty distinct
values after rounding to three decimal digits (0, 0.001 and the even
numbers 2 .. 96), padded with repeats of 0 to one hundred points.  The
values 0 and 0.001 fall into the same histogram bin (the bins are 0.96
wide), so only 49 of the 100 bins are occupied. -/
def c2_window_x : List ℚ :=
  [0, 1/1000] ++ (List.range 48).map (fun j : ℕ => 2 * ((j : ℚ) + 1))
    ++ List.replicate 50 0

/-- Claim C2, counterexample to its second half as stated: an axis window
with exactly 50 distinct rounded values whose diversity count is only 49
occupied bins, so the check rejects even though one axis has 50 distinct
rounded values. -/
theorem claim_C2_cex :
    c2_window_x.length = 100 ∧ c2_window_y.length = 100 ∧
    ((c2_window_x.map np_round3).dedup).length = 50 ∧
    check_histogram [c2_window_x, c2_window_y] = false :=
  ⟨by decide, by decide, by decide, by decide⟩

/-- Claim C2 (amended): a window whose every axis has exactly 49 distinct
rounded values is rejected (at most 49 of the 100 bins can be occupied);
and the check passes if and only if at least one axis has a diversity
count (occupied-bin count) of at least the threshold 50 - but 50 distinct
rounded values alone do not suffice, because distinct values may share a
histogram bin. -/
theorem claim_C2 :
    (∀ ws : List (List ℚ), ws ≠ [] →
      (∀ w ∈ ws, w.length = 100 ∧ ((w.map np_round3).dedup).length = 49) →
      check_histogram ws = false) ∧
    (∀ ws : List (List ℚ), (∃ w ∈ ws, diversity_threshold ≤ diff_val w) →
      check_histogram ws = true) ∧
    (∀ ws : List (List ℚ), check_histogram ws = true →
      ∃ w ∈ ws, diversity_threshold ≤ diff_val w) := by
  refine ⟨?_, ?_, ?_⟩
  · intro ws _ h
    unfold check_histogram
    rw [show ws.all (fun w => decide (diff_val w < diversity_threshold))
        = true from ?_]
    · rfl
    · rw [List.all_eq_true]
      intro w hw
      rw [decide_eq_true_eq]
      have h1 := diff_val_le_dedup w
      rw [(h w hw).2] at h1
      unfold diversity_threshold
      omega
  · intro ws h
    obtain ⟨w, hw, hge⟩ := h
    unfold check_histogram
    rw [show ws.all (fun w => decide (diff_val w < diversity_threshold))
        = false from ?_]
    · rfl
    · rw [List.all_eq_false]
      refine ⟨w, hw, ?_⟩
      rw [decide_eq_true_eq]
      omega
  · intro ws h
    unfold check_histogram at h
    rw [Bool.not_eq_true'] at h
    obtain ⟨w, hw, hp⟩ := List.all_eq_false.mp h
    refine ⟨w, hw, ?_⟩
    rw [decide_eq_true_eq] at hp
    omega

/-- Fifty distinct integer values (0 .. 49) padded to one hundred
points: every value lands in its own bin, so fifty bins are occupied. -/
def c2_window50 : List ℚ :=
  (List.range 50).map (fun j : ℕ => (j : ℚ)) ++ List.replicate 50 0

/-- Forty-nine distinct integer values (0 .. 48) padded to one hundred
points. -/
def c2_window49 : List ℚ :=
  (List.range 49).map (fun j : ℕ => (j : ℚ)) ++ List.replicate 51 0

theorem claim_C2_wit :
    check_histogram [c2_window49, c2_window49] = false ∧
    check_histogram [c2_window50] = true ∧
    ∃ w ∈ ([c2_window50] : List (List ℚ)),
      diversity_threshold ≤ diff_val w :=
  ⟨claim_C2.1 [c2_window49, c2_window49] (by decide) (by decide),
   claim_C2.2.1 [c2_window50] (by decide),
   claim_C2.2.2 [c2_window50] (by decide)⟩

/-- Claim C3 (amended): the diversity check executes only at loop index
300, requires `P + F > 301` (for `P + F ≤ 301` no degeneracy screening
occurs and the run can only end DIVERGED or COMPLETE), and conversely
executes whenever `P + F > 301` and no divergence occurs through step
300; its windows are the points at indices 200 .. 299 of each axis. -/
theorem claim_C3 :
    (∀ (dims : ℕ) (step : List ℚ → List ℚ) (init : List ℚ) (total s : ℕ),
      s ∈ (runSteps dims step init (total - 1) 0).checks →
      s = 300 ∧ 301 < total) ∧
    (∀ (dims : ℕ) (step : List ℚ → List ℚ) (init : List ℚ) (total : ℕ),
      total ≤ 301 →
      (runSteps dims step init (total - 1) 0).checks = [] ∧
      ∀ cs, (runSteps dims step init (total - 1) 0).verdict
        ≠ .lowDiversity cs) ∧
    (∀ (dims : ℕ) (step : List ℚ → List ℚ) (init : List ℚ) (total : ℕ),
      301 < total →
      (∀ j, 1 ≤ j → j ≤ 301 → out_of_bounds (orbitL step init j) = false) →
      300 ∈ (runSteps dims step init (total - 1) 0).checks) ∧
    (∀ (step : List ℚ → List ℚ) (init : List ℚ) (a : ℕ),
      axis_window step init a 300
        = (List.range 100).map
            (fun k => (orbitL step init (200 + k)).getD a 0)) := by
  refine ⟨?_, ?_, ?_, ?_⟩
  · intro dims step init total s h
    obtain ⟨h1, h2, h3⟩ := runSteps_checks_spec dims step init (total - 1) 0 s h
    exact ⟨h1, by omega⟩
  · intro dims step init total h
    exact runSteps_short_no_filter dims step init (total - 1) 0 (by omega)
  · intro dims step init total h hb
    exact runSteps_check_executed dims step init (total - 1) 0 (by omega)
      (by omega) (fun j h1 h2 => hb j (by omega) h2)
  · intro step init a
    rfl

/-- Claim C3, counterexample to the biconditional as stated: a run with
`P + F = 400 > 301` that diverges at step 1 never executes the diversity
check. -/
theorem claim_C3_cex :
    301 < 400 ∧
    (runSteps 2 (step_2d_map map_2d_12 (List.replicate 12 (13/10))) init2
      (400 - 1) 0).checks = [] ∧
    (runSteps 2 (step_2d_map map_2d_12 (List.replicate 12 (13/10))) init2
      (400 - 1) 0).verdict
      = .diverged 1 (orbitL (step_2d_map map_2d_12
          (List.replicate 12 (13/10))) init2 2) :=
  ⟨by norm_num, by decide, by decide⟩

theorem claim_C3_wit :
    (300 = 300 ∧ 301 < 302) ∧
    300 ∈ (runSteps 2 (step_2d_map map_2d_12 (List.replicate 12 (0 : ℚ)))
      init2 (302 - 1) 0).checks := by
  constructor
  · exact claim_C3.1 2 (step_2d_map map_2d_12 (List.replicate 12 0)) init2
      302 300 (by
        rw [show (302 : ℕ) - 1 = 301 from rfl,
          run_allM 301 0 (by norm_num) (by norm_num)]
        decide)
  · exact claim_C3.2.2.1 2 (step_2d_map map_2d_12 (List.replicate 12 0))
      init2 302 (by norm_num) (fun j hj1 hj2 => by
        rcases j with _ | n
        · omega
        · rw [orbit_allM]; decide)

/-- Claim C4: a DIVERGED verdict reports the loop index and the computed
point, that point genuinely has a coordinate of magnitude above 10; a
COMPLETE run contains no point with a coordinate of magnitude above 10
(including the initial conditions 0.1); and if the first out-of-bounds
point appears at step `i` (and the step-300 checkpoint, when it comes
first, passed), generation stops exactly there with DIVERGED. -/
theorem claim_C4 :
    (∀ (dims : ℕ) (step : List ℚ → List ℚ) (init : List ℚ)
        (total i : ℕ) (p : List ℚ),
      (runSteps dims step init (total - 1) 0).verdict = .diverged i p →
      out_of_bounds p = true ∧ p = orbitL step init (i + 1) ∧
        i + 2 ≤ total) ∧
    (∀ (dims : ℕ) (step : List ℚ → List ℚ) (init : List ℚ) (total : ℕ),
      (runSteps dims step init (total - 1) 0).verdict = .complete →
      ∀ j, 1 ≤ j → j < total →
        out_of_bounds (orbitL step init j) = false) ∧
    (out_of_bounds init2 = false ∧ out_of_bounds init3 = false) ∧
    (∀ (dims : ℕ) (step : List ℚ → List ℚ) (init : List ℚ) (total i : ℕ),
      i + 2 ≤ total →
      (∀ j, 1 ≤ j → j ≤ i → out_of_bounds (orbitL step init j) = false) →
      out_of_bounds (orbitL step init (i + 1)) = true →
      (300 < i → check_histogram ((List.range dims).map
        (fun a => axis_window step init a 300)) = true) →
      (runSteps dims step init (total - 1) 0).verdict
        = .diverged i (orbitL step init (i + 1))) := by
  refine ⟨?_, ?_, ⟨by decide, by decide⟩, ?_⟩
  · intro dims step init total i p h
    obtain ⟨h1, h2, h3, h4⟩ :=
      runSteps_diverged_spec dims step init (total - 1) 0 i p h
    exact ⟨h1, h2, by omega⟩
  · intro dims step init total h j hj1 hj2
    exact runSteps_complete_spec dims step init (total - 1) 0 h j
      (by omega) (by omega)
  · intro dims step init total i hi hb hoob hh
    exact runSteps_diverged_at dims step init (total - 1) 0 i (by omega)
      (by omega) (fun j h1 h2 => hb j (by omega) h2) hoob
      (fun _ h2 => hh h2)

theorem claim_C4_wit :
    out_of_bounds (orbitL (step_2d_map map_2d_12
      (List.replicate 12 (13/10))) init2 2) = true ∧
    orbitL (step_2d_map map_2d_12 (List.replicate 12 (13/10))) init2 2
      = orbitL (step_2d_map map_2d_12 (List.replicate 12 (13/10))) init2
          (1 + 1) ∧
    1 + 2 ≤ 400 :=
  claim_C4.1 2 (step_2d_map map_2d_12 (List.replicate 12 (13/10))) init2
    400 1 (orbitL (step_2d_map map_2d_12 (List.replicate 12 (13/10)))
      init2 2) (by decide)

/-- Claim C7: the resampled curve always has exactly
`P * interpolation_factor + F` points; the fitted curve evaluated at an
original sample's parameter value returns that sample exactly; with
factor 1 the resampled curve is the original trajectory; and the
parameter grid is evenly spaced and spans `[0, P+F-1]`.  The external
scipy spline is modelled from the spec (§4.5) as an exactly
interpolating order-1 spline. -/
theorem claim_C7 :
    (∀ (xs : List ℚ) (P F I : ℕ), (resample xs P F I).length = P * I + F) ∧
    (∀ (xs : List ℚ) (k : ℕ), k < xs.length →
      splineEval xs (k : ℚ) = xs.getD k 0) ∧
    (∀ (xs : List ℚ) (P F : ℕ), 1 ≤ P → xs.length = P + F →
      resample xs P F 1 = xs) ∧
    (∀ (a b : ℚ) (n : ℕ), 1 ≤ n → (linspace a b n).getD 0 0 = a) ∧
    (∀ (a b : ℚ) (n : ℕ), 2 ≤ n → (linspace a b n).getD (n - 1) 0 = b) ∧
    (∀ (a b : ℚ) (n k : ℕ), k + 1 < n →
      (linspace a b n).getD (k + 1) 0 - (linspace a b n).getD k 0
        = (b - a) / ((n : ℚ) - 1)) :=
  ⟨resample_length, splineEval_nat, resample_one, linspace_first,
   linspace_last, linspace_spacing⟩

theorem claim_C7_wit :
    resample [1, 5, 2, 9] 4 0 1 = [1, 5, 2, 9] ∧
    splineEval [3, 7] ((1 : ℕ) : ℚ) = ([3, 7] : List ℚ).getD 1 0 :=
  ⟨claim_C7.2.2.1 [1, 5, 2, 9] 4 0 (by norm_num) (by decide),
   claim_C7.2.1 [3, 7] 1 (by decide)⟩

/-- Claim C8: trajectory generation is deterministic - two runs with the
same family, parameter string, point counts (and time step in flow mode)
produce the same result, and any sequence satisfying the generation
recurrence (index 0 the initial condition, each later point the step
image of its predecessor) equals the orbit point for point; there is no
other input to generation. -/
theorem claim_C8 :
    (∀ (ps₁ ps₂ : List Char) (P₁ P₂ F₁ F₂ : ℕ)
        (mf₁ mf₂ : ℚ → ℚ → List ℚ → ℚ × ℚ),
      ps₁ = ps₂ → P₁ = P₂ → F₁ = F₂ → mf₁ = mf₂ →
      get_attractor_2d_map ps₁ P₁ F₁ mf₁
        = get_attractor_2d_map ps₂ P₂ F₂ mf₂) ∧
    (∀ (ps₁ ps₂ : List Char) (t₁ t₂ : ℚ) (P₁ P₂ F₁ F₂ : ℕ)
        (mf₁ mf₂ : ℚ → ℚ → ℚ → List ℚ → ℚ × ℚ × ℚ),
      ps₁ = ps₂ → t₁ = t₂ → P₁ = P₂ → F₁ = F₂ → mf₁ = mf₂ →
      get_attractor_3d_flow ps₁ t₁ P₁ F₁ mf₁
        = get_attractor_3d_flow ps₂ t₂ P₂ F₂ mf₂) ∧
    (∀ (step : List ℚ → List ℚ) (init : List ℚ) (t : ℕ → List ℚ),
      t 0 = init → (∀ n, t (n + 1) = step (t n)) →
      ∀ n, t n = orbitL step init n) := by
  refine ⟨?_, ?_, orbit_unique⟩
  · intro ps₁ ps₂ P₁ P₂ F₁ F₂ mf₁ mf₂ h1 h2 h3 h4
    subst h1; subst h2; subst h3; subst h4; rfl
  · intro ps₁ ps₂ t₁ t₂ P₁ P₂ F₁ F₂ mf₁ mf₂ h1 h2 h3 h4 h5
    subst h1; subst h2; subst h3; subst h4; subst h5; rfl

theorem claim_C8_wit :
    get_attractor_2d_map (List.replicate 12 'M') 5 0 map_2d_12
      = get_attractor_2d_map (List.replicate 12 'M') 5 0 map_2d_12 ∧
    (fun n => orbitL (step_2d_map map_2d_12 (List.replicate 12 (0 : ℚ)))
        init2 n) 4
      = orbitL (step_2d_map map_2d_12 (List.replicate 12 (0 : ℚ)))
          init2 4 :=
  ⟨claim_C8.1 _ _ 5 5 0 0 _ _ rfl rfl rfl rfl,
   claim_C8.2.2 _ init2 _ rfl (fun _ => rfl) 4⟩

/-- Claim C10: the generation loop performs no out-of-bounds access -
with buffers of capacity `P + F` the access-checked run never fails,
agrees with the unchecked run, and writes at most `P + F` points; and
each map family reads only the coefficient indices below its arity. -/
theorem claim_C10 :
    (∀ (dims : ℕ) (step : List ℚ → List ℚ) (init : List ℚ) (total : ℕ),
      1 ≤ total →
      ∃ buf, runStepsChecked dims step total (total - 1) 0 [init]
          = some (runSteps dims step init (total - 1) 0, buf) ∧
        buf.length ≤ total) ∧
    (∀ x y c₁ c₂, (∀ j, j < 12 → c₁.getD j 0 = c₂.getD j 0) →
      map_2d_12 x y c₁ = map_2d_12 x y c₂) ∧
    (∀ x y c₁ c₂, (∀ j, j < 20 → c₁.getD j 0 = c₂.getD j 0) →
      map_2d_20 x y c₁ = map_2d_20 x y c₂) ∧
    (∀ x y z c₁ c₂, (∀ j, j < 30 → c₁.getD j 0 = c₂.getD j 0) →
      map_3d_30 x y z c₁ = map_3d_30 x y z c₂) ∧
    (∀ x y z c₁ c₂, (∀ j, j < 60 → c₁.getD j 0 = c₂.getD j 0) →
      map_3d_60 x y z c₁ = map_3d_60 x y z c₂) ∧
    (∀ x y z c₁ c₂, (∀ j, j < 105 → c₁.getD j 0 = c₂.getD j 0) →
      map_3d_105 x y z c₁ = map_3d_105 x y z c₂) := by
  refine ⟨?_, ?_, ?_, ?_, ?_, ?_⟩
  · intro dims step init total h
    have h2 := runStepsChecked_eq dims step init total (total - 1) 0
      (by omega)
    rw [show (List.range (0 + 1)).map (orbitL step init) = [init]
      from rfl] at h2
    exact h2
  · intro x y c₁ c₂ h
    rw [map_2d_12_eq_polyEval, map_2d_12_eq_polyEval,
      polyEval2_congr mons_2d_12 c₁ c₂ x y 0
        (fun j h1 h2 => h j (by simp [mons_2d_12] at h2; omega)),
      polyEval2_congr mons_2d_12 c₁ c₂ x y 6
        (fun j h1 h2 => h j (by simp [mons_2d_12] at h2; omega))]
  · intro x y c₁ c₂ h
    rw [map_2d_20_eq_polyEval, map_2d_20_eq_polyEval,
      polyEval2_congr mons_2d_20 c₁ c₂ x y 0
        (fun j h1 h2 => h j (by simp [mons_2d_20] at h2; omega)),
      polyEval2_congr mons_2d_20 c₁ c₂ x y 10
        (fun j h1 h2 => h j (by simp [mons_2d_20] at h2; omega))]
  · intro x y z c₁ c₂ h
    rw [map_3d_30_eq_polyEval, map_3d_30_eq_polyEval,
      polyEval3_congr mons_3d_30 c₁ c₂ x y z 0
        (fun j h1 h2 => h j (by simp [mons_3d_30] at h2; omega)),
      polyEval3_congr mons_3d_30 c₁ c₂ x y z 10
        (fun j h1 h2 => h j (by simp [mons_3d_30] at h2; omega)),
      polyEval3_congr mons_3d_30 c₁ c₂ x y z 20
        (fun j h1 h2 => h j (by simp [mons_3d_30] at h2; omega))]
  · intro x y z c₁ c₂ h
    rw [map_3d_60_eq_polyEval, map_3d_60_eq_polyEval,
      polyEval3_congr mons_3d_60 c₁ c₂ x y z 0
        (fun j h1 h2 => h j (by simp [mons_3d_60] at h2; omega)),
      polyEval3_congr mons_3d_60 c₁ c₂ x y z 20
        (fun j h1 h2 => h j (by simp [mons_3d_60] at h2; omega)),
      polyEval3_congr mons_3d_60 c₁ c₂ x y z 40
        (fun j h1 h2 => h j (by simp [mons_3d_60] at h2; omega))]
  · intro x y z c₁ c₂ h
    rw [map_3d_105_eq_polyEval, map_3d_105_eq_polyEval,
      polyEval3_congr mons_3d_105 c₁ c₂ x y z 0
        (fun j h1 h2 => h j (by simp [mons_3d_105] at h2; omega)),
      polyEval3_congr mons_3d_105 c₁ c₂ x y z 35
        (fun j h1 h2 => h j (by simp [mons_3d_105] at h2; omega)),
      polyEval3_congr mons_3d_105 c₁ c₂ x y z 70
        (fun j h1 h2 => h j (by simp [mons_3d_105] at h2; omega))]

theorem claim_C10_wit :
    (∃ buf, runStepsChecked 1 (fun p => p) 1 (1 - 1) 0 [[(0 : ℚ)]]
        = some (runSteps 1 (fun p => p) [(0 : ℚ)] (1 - 1) 0, buf) ∧
      buf.length ≤ 1) ∧
    map_3d_105 1 2 3 [] = map_3d_105 1 2 3 (List.replicate 105 0) :=
  ⟨claim_C10.1 1 (fun p => p) [(0 : ℚ)] 1 (by norm_num),
   claim_C10.2.2.2.2.2 1 2 3 [] (List.replicate 105 0)
     (fun j hj => by rw [getD_replicate_zero]; rfl)⟩
